import Mathlib

/-!
Shallow embedding of the recommender-system source file
(`ex2_206348187_312236219.py`): a baseline mean-bias model, a
neighborhood (user-correlation) model, a basic least-squares model and an
extended (damped) least-squares model, together with theorems settling the
frozen claims about them.

Conventions of the embedding:
- Python floats are modelled as rationals where the computation stays in
  field arithmetic, and as reals where a square root occurs (the user
  correlation matrix).
- A Python exception is modelled by `Option`: `none` means the call raised.
  A `try/except` that catches and substitutes a fallback value is folded
  into a total function.
- DataFrames indexed by `RangeIndex 0..n-1` become functions out of `Nat`
  together with an explicit bound; `.loc` lookups that can raise `KeyError`
  become bound checks.
- Timestamps are integer epoch seconds interpreted in UTC.
-/

set_option autoImplicit false

namespace Ecommerce

/-! ### Timestamp decomposition (datetime / pandas `.dt` accessors) -/

/-- Days since the Unix epoch (floor division, as Python `//`). -/
def daysFromEpoch (t : Int) : Int := t.fdiv 86400

/-- Seconds elapsed since midnight of the (UTC) day of the timestamp. -/
def secsOfDay (t : Int) : Int := t.emod 86400

/-- Python `date.weekday()`: Monday = 0 .. Sunday = 6.
1970-01-01 (epoch day 0) was a Thursday, hence the offset 3. -/
def weekdayOf (t : Int) : Int := (daysFromEpoch t + 3).emod 7

/-- Civil (proleptic Gregorian) date from a count of days since the epoch,
returning `(year, month, day)`; standard era-based algorithm, matching
`datetime.datetime.fromtimestamp` / `pd.to_datetime(unit=s)` in UTC. -/
def civilFromDays (z : Int) : Int × Int × Int :=
  let z2 : Int := z + 719468
  let era : Int := z2.fdiv 146097
  let doe : Nat := (z2 - era * 146097).toNat
  let yoe : Nat := (doe - doe / 1460 + doe / 36524 - doe / 146096) / 365
  let doy : Nat := doe - (365 * yoe + yoe / 4 - yoe / 100)
  let mp : Nat := (5 * doy + 2) / 153
  let d : Int := (doy : Int) - ((153 * mp + 2) / 5 : Nat) + 1
  let m : Int := if mp < 10 then (mp : Int) + 3 else (mp : Int) - 9
  let y : Int := (yoe : Int) + era * 400 + (if m ≤ 2 then 1 else 0)
  (y, m, d)

/-- `date.year`. -/
def yearOf (t : Int) : Int := (civilFromDays (daysFromEpoch t)).1

/-- `date.month`. -/
def monthOf (t : Int) : Int := (civilFromDays (daysFromEpoch t)).2.1

/-- Quarter as computed at predict time: `(date.month - 1) // 3 + 1`.
(`pd.to_datetime(...).dt.quarter` used at fit time agrees with this.) -/
def quarterOf (t : Int) : Int := (monthOf t - 1).fdiv 3 + 1

/-- `date.weekday() in [4, 5]` — the Friday/Saturday weekend flag used by
both least-squares models at fit and at predict time. -/
def isWeekend (t : Int) : Prop := weekdayOf t = 4 ∨ weekdayOf t = 5

instance (t : Int) : Decidable (isWeekend t) := by
  unfold isWeekend; infer_instance

/-- Fit-time daytime flag:
`ratings[date].dt.time.between(time(6, 00), time(18, 00))` — pandas
`between` is inclusive at BOTH endpoints. -/
def fitIsDaytime (t : Int) : Prop :=
  21600 ≤ secsOfDay t ∧ secsOfDay t ≤ 64800

instance (t : Int) : Decidable (fitIsDaytime t) := by
  unfold fitIsDaytime; infer_instance

/-- Predict-time daytime flag:
`date.time() > time(6, 00) and date.time() < time(18, 00)` — strict at
BOTH endpoints. -/
def predictIsDaytime (t : Int) : Prop :=
  21600 < secsOfDay t ∧ secsOfDay t < 64800

instance (t : Int) : Decidable (predictIsDaytime t) := by
  unfold predictIsDaytime; infer_instance

/-- Fit-time nighttime flag: `ratings[is_nighttime] = ~ratings[is_daytime]`. -/
def fitIsNighttime (t : Int) : Prop := ¬ fitIsDaytime t

instance (t : Int) : Decidable (fitIsNighttime t) := by
  unfold fitIsNighttime; infer_instance

/-- The per-record context-flag triple `(is_weekend, is_daytime,
is_nighttime)` produced at fit time (feature construction) by both
least-squares models. -/
def fitFeatures (t : Int) : Bool × Bool × Bool :=
  (decide (isWeekend t), decide (fitIsDaytime t), decide (fitIsNighttime t))

/-! ### Clamp (`np.clip(prediction, a_min=0.5, a_max=5)`) -/

section Clamp

variable {K : Type} [LinearOrderedField K]

/-- `np.clip(x, 0.5, 5)` = `min(5, max(0.5, x))`. -/
def clamp (x : K) : K := min 5 (max (1/2) x)

theorem clamp_mem (x : K) : 1/2 ≤ clamp x ∧ clamp x ≤ 5 := by
  constructor
  · exact le_min (by norm_num) (le_max_left _ _)
  · exact min_le_left _ _

end Clamp

/-- Arithmetic mean of a list of rationals (`Series.mean`); the empty list
is never fed to it by the fitted models. -/
def meanQ (l : List ℚ) : ℚ := l.sum / l.length

/-! ### Baseline model (`BaselineRecommender`) -/

/-- Fitted state of the baseline model: global mean plus the two bias
tables.  The bias tables are keyed by the raw ids appearing in the fit
data; a missing key (`.loc` raising) is `none`. -/
structure BState where
  Rhat : ℚ
  Bu : Int → Option ℚ
  Bi : Int → Option ℚ

/-- `BaselineRecommender.predict`: the whole bias lookup is wrapped in
`try/except`, so any missing key degrades to the global mean; the result
is always clamped to `[0.5, 5]`. -/
def bPredict (S : BState) (user item : Int) (_timestamp : Int) : ℚ :=
  let pred : ℚ :=
    match S.Bu user, S.Bi item with
    | some bu, some bi => S.Rhat + bu + bi
    | _, _ => S.Rhat
  clamp pred

/-! ### Ratings records -/

/-- One row of the ratings DataFrame, in its positional column order
`(user, item, rating, timestamp)`. -/
structure RatingRec where
  user : Int
  item : Int
  rating : ℚ
  timestamp : Int

/-- `len(self.B_u)` — number of distinct users in the fit data. -/
def distinctUsersN (recs : List RatingRec) : Nat :=
  ((recs.map (fun r => r.user)).dedup).length

/-- `len(self.B_i)` — number of distinct items in the fit data. -/
def distinctItemsN (recs : List RatingRec) : Nat :=
  ((recs.map (fun r => r.item)).dedup).length

/-- Per-user mean deviation `B_u` (and, with roles swapped, `B_i`):
mean of the ratings of the group minus the global mean; `none` when the id has
no group (a `.loc` on it would raise). -/
def groupMeanBu (recs : List RatingRec) (Rhat : ℚ) (u : Int) : Option ℚ :=
  let mine := recs.filter (fun r => decide (r.user = u))
  if mine.isEmpty then none else some (meanQ (mine.map (fun r => r.rating)) - Rhat)

/-- Per-item mean deviation `B_i`. -/
def groupMeanBi (recs : List RatingRec) (Rhat : ℚ) (i : Int) : Option ℚ :=
  let mine := recs.filter (fun r => decide (r.item = i))
  if mine.isEmpty then none else some (meanQ (mine.map (fun r => r.rating)) - Rhat)

/-! ### Neighborhood model (`NeighborhoodRecommender`): fit-time matrices -/

/-- numpy bound check for the fancy assignment
`R_tilde[items, users] = values` on an array of shape `(I, U)`: an index
outside `[-n, n)` raises `IndexError`. -/
def inNumpyBounds (I U : Nat) (r : RatingRec) : Prop :=
  -(I : Int) ≤ r.item ∧ r.item < I ∧ -(U : Int) ≤ r.user ∧ r.user < U

instance (I U : Nat) (r : RatingRec) : Decidable (inNumpyBounds I U r) := by
  unfold inNumpyBounds; infer_instance

/-- numpy index wrapping: a negative in-bounds index `k` addresses cell
`k + n`. -/
def wrapIdx (n : Nat) (k : Int) : Nat := (k % (n : Int)).toNat

/-- Overwrite one cell of a matrix represented as a function. -/
def writeCell (M : Nat → Nat → ℚ) (i u : Nat) (v : ℚ) : Nat → Nat → ℚ :=
  fun i2 u2 => if i2 = i ∧ u2 = u then v else M i2 u2

/-- One record of the numpy fancy assignment: write the mean-adjusted
rating at the (wrapped) cell addressed by the raw ids of the record. -/
def buildStep (I U : Nat) (Rhat : ℚ) (M : Nat → Nat → ℚ) (r : RatingRec) :
    Nat → Nat → ℚ :=
  writeCell M (wrapIdx I r.item) (wrapIdx U r.user) (r.rating - Rhat)

/-- The deviation-matrix build
`R_tilde = np.zeros((num_items, num_users));`
`R_tilde[items, users] = rating_adjusted`: `none` models the `IndexError`
raised when any index is out of numpy bounds; otherwise all cells are
written (later records overwrite earlier ones at equal cells). -/
def buildRtilde (I U : Nat) (Rhat : ℚ) (recs : List RatingRec) :
    Option (Nat → Nat → ℚ) :=
  if recs.all (fun r => decide (inNumpyBounds I U r)) then
    some (recs.foldl (buildStep I U Rhat) (fun _ _ => 0))
  else none

/-! ### Neighborhood model: correlation matrix (source lines 92-98) -/

/-- `nominator = R_tilde.T.dot(R_tilde)`: entry `(a, b)` is
`Σ_item D[item, a] * D[item, b]`. -/
def nomC (D : Nat → Nat → ℚ) (I : Nat) (a b : Nat) : ℚ :=
  ((List.range I).map (fun i => D i a * D i b)).sum

/-- `a = (R_tilde ** 2).T.dot(binary_R_tilde)`: entry `(a, b)` is
`Σ_item D[item, a]^2 * [D[item, b] ≠ 0]`. -/
def Amat (D : Nat → Nat → ℚ) (I : Nat) (a b : Nat) : ℚ :=
  ((List.range I).map (fun i => (D i a) ^ 2 * (if D i b = 0 then 0 else 1))).sum

/-- `denominator = a.T * a` (elementwise): entry `(a, b)` is
`Amat(b, a) * Amat(a, b)`. -/
def denomC (D : Nat → Nat → ℚ) (I : Nat) (a b : Nat) : ℚ :=
  Amat D I b a * Amat D I a b

/-- `corr = nominator / np.sqrt(denominator); corr.fillna(0)`: the IEEE
quotient is NaN exactly when `0 / 0`, i.e. when the nominator and the
denominator both vanish, and `fillna` turns that entry into `0`.  (The
case nominator ≠ 0 with denominator = 0 cannot occur: see
`denomC_eq_zero_nomC`.) -/
noncomputable def corrC (D : Nat → Nat → ℚ) (I : Nat) (a b : Nat) : ℝ :=
  if nomC D I a b = 0 ∧ denomC D I a b = 0 then 0
  else (nomC D I a b : ℝ) / Real.sqrt ((denomC D I a b : ℝ))

/-- `user_similarity(user1, user2) = self.user_corr.loc[user1, user2]`:
a label outside the `RangeIndex` raises (`none`). -/
def userSimilarityOf (corr : Nat → Nat → ℝ) (U : Nat) (u1 u2 : Int) :
    Option ℝ :=
  if 0 ≤ u1 ∧ u1.toNat < U ∧ 0 ≤ u2 ∧ u2.toNat < U then
    some (corr u1.toNat u2.toNat)
  else none

/-! ### Neighborhood model: fitted state and predict -/

/-- Fitted state of the neighborhood model, generic over the number field
`K` (the real fitted state lives in `ℝ` because the correlation matrix
involves a square root; the predict-path theorems hold over any linear
ordered field). -/
structure NState (K : Type) where
  numUsers : Nat
  numItems : Nat
  Rhat : K
  Bu : Int → Option K
  Bi : Int → Option K
  Rtilde : Nat → Nat → K
  binary : Nat → Nat → Bool
  userCorr : Nat → Nat → K
  numNeighbours : Nat

section NPredict

variable {K : Type} [LinearOrderedField K]

/-- Line 110: `binary_R_tilde.loc[item] * user_corr.loc[user]` — the
candidate score of user `v`. -/
def scoresOf (S : NState K) (user item v : Nat) : K :=
  (if S.binary item v then (1 : K) else 0) * S.userCorr user v

/-- Line 112: zero scores are set to `None` (NaN), which `nlargest`
then drops — so the candidate pool is the users with nonzero score. -/
def candidatesOf (S : NState K) (user item : Nat) : List Nat :=
  (List.range S.numUsers).filter (fun v => decide (scoresOf S user item v ≠ 0))

/-- One step of `nlargest`: the first element of largest weight, together
with the remaining list (ties resolved to the earlier element, as pandas
keeps first occurrences). -/
def pickMax (w : Nat → K) : List Nat → Option (Nat × List Nat)
  | [] => none
  | x :: xs =>
    match pickMax w xs with
    | none => some (x, [])
    | some (b, rest) => if w x < w b then some (b, x :: rest) else some (x, xs)

/-- `nlargest(n)`: repeatedly extract a maximal-weight element, at most
`n` times. -/
def topKAbs (w : Nat → K) : Nat → List Nat → List Nat
  | 0, _ => []
  | k + 1, l =>
    match pickMax w l with
    | none => []
    | some (b, rest) => b :: topKAbs w k rest

/-- Line 113: indices of `nearest_neighbours.abs().nlargest(num_neighbours)`. -/
def selectedOf (S : NState K) (user item : Nat) : List Nat :=
  topKAbs (fun v => |scoresOf S user item v|) S.numNeighbours
    (candidatesOf S user item)

/-- Line 116: `(nearest_neighbours_corr * nearest_neighbours_ratings).sum()`. -/
def nomSum (S : NState K) (user item : Nat) : K :=
  ((selectedOf S user item).map
    (fun v => scoresOf S user item v * S.Rtilde item v)).sum

/-- Line 117: `nearest_neighbours_corr.abs().sum()`. -/
def denSum (S : NState K) (user item : Nat) : K :=
  ((selectedOf S user item).map (fun v => |scoresOf S user item v|)).sum

/-- `NeighborhoodRecommender.predict`.  The `.loc` lookups on lines
110 and 115 sit OUTSIDE the `try`, so an `item` that is not a row label of
the deviation matrix, or a `user` that is not a label of the correlation
matrix, raises (`none`).  Inside the guarded region, a missing bias entry
degrades to the global mean, and the result is clamped. -/
def nPredict (S : NState K) (user item : Int) (_timestamp : Int) :
    Option K :=
  if 0 ≤ item ∧ item.toNat < S.numItems ∧ 0 ≤ user ∧ user.toNat < S.numUsers then
    let u := user.toNat
    let i := item.toNat
    let nom := nomSum S u i
    let den := denSum S u i
    let dev := if nom = 0 ∨ den = 0 then 0 else nom / den
    let pred :=
      match S.Bu user, S.Bi item with
      | some bu, some bi => S.Rhat + bu + bi + dev
      | _, _ => S.Rhat
    some (clamp pred)
  else none

end NPredict

/-- `NeighborhoodRecommender.initialize_predictor`: computes the global
mean, the bias tables, the deviation and presence matrices and the user
correlation matrix; `none` models the `IndexError` the numpy assignment
raises on out-of-bounds ids. -/
noncomputable def nFit (recs : List RatingRec) : Option (NState ℝ) :=
  let Rhat : ℚ := meanQ (recs.map (fun r => r.rating))
  let I := distinctItemsN recs
  let U := distinctUsersN recs
  match buildRtilde I U Rhat recs with
  | none => none
  | some D =>
    some
      { numUsers := U
        numItems := I
        Rhat := (Rhat : ℝ)
        Bu := fun u => (groupMeanBu recs Rhat u).map (fun q => (q : ℝ))
        Bi := fun i => (groupMeanBi recs Rhat i).map (fun q => (q : ℝ))
        Rtilde := fun i u => (D i u : ℝ)
        binary := fun i u => decide (D i u ≠ 0)
        userCorr := fun a b => corrC D I a b
        numNeighbours := 3 }

/-! ### Basic least-squares model (`LSRecommender`) -/

/-- Fitted state of the basic least-squares model: the global mean, the
column-index mapping of the one-hot design matrix (`X.columns.get_loc` on
the names `user_{id}` / `item_{id}`; `none` = `KeyError`), the coefficient
vector and the recorded positions of the three context-flag columns. -/
structure LSState where
  Rhat : ℚ
  userCol : Int → Option Nat
  itemCol : Int → Option Nat
  beta : Nat → ℚ
  weekendIdx : Nat
  daytimeIdx : Nat
  nighttimeIdx : Nat

/-- The weekend coefficient contribution selected at predict time
(`if date.weekday() in [4, 5]: indices.append(is_weekend_index)`). -/
def lsWeekendTerm (beta : Nat → ℚ) (weekendIdx : Nat) (t : Int) : ℚ :=
  if isWeekend t then beta weekendIdx else 0

/-- The day/night coefficient contribution selected at predict time:
exactly one of the two flags is appended. -/
def lsDayNightTerm (beta : Nat → ℚ) (daytimeIdx nighttimeIdx : Nat) (t : Int) : ℚ :=
  if predictIsDaytime t then beta daytimeIdx else beta nighttimeIdx

/-- `LSRecommender.predict`: both the user and the item column are
required — a `KeyError` on either is swallowed by the surrounding
`try/except` and degrades the prediction to the global mean; otherwise
the prediction is the global mean plus the selected coefficients, and the
result is always clamped. -/
def lsPredict (S : LSState) (user item : Int) (t : Int) : ℚ :=
  let pred : ℚ :=
    match S.userCol user, S.itemCol item with
    | some cu, some ci =>
        S.Rhat + (S.beta cu + S.beta ci
          + lsWeekendTerm S.beta S.weekendIdx t
          + lsDayNightTerm S.beta S.daytimeIdx S.nighttimeIdx t)
    | _, _ => S.Rhat
  clamp pred

/-! ### Extended least-squares model (`CompetitionRecommender`) -/

/-- Fitted state of the extended model: as `LSState` plus the
year and quarter one-hot column mappings. -/
structure CState where
  Rhat : ℚ
  userCol : Int → Option Nat
  itemCol : Int → Option Nat
  yearCol : Int → Option Nat
  quarterCol : Int → Option Nat
  beta : Nat → ℚ
  weekendIdx : Nat
  daytimeIdx : Nat
  nighttimeIdx : Nat

/-- `CompetitionRecommender.raw_predict`: the user, year and quarter
columns are each required (any `KeyError` among them reaches the outer
bare `except` and yields the global mean); the item column lookup sits in
an inner `try/except KeyError: pass`, so an unseen item is silently
omitted from the index list; the weekend and day/night flags are selected
as in the basic model.  Returns the UNclamped value. -/
def cRawPredict (S : CState) (user item : Int) (t : Int) : ℚ :=
  match S.userCol user with
  | none => S.Rhat
  | some cu =>
    match S.yearCol (yearOf t), S.quarterCol (quarterOf t) with
    | some cy, some cq =>
        S.Rhat + (S.beta cu
          + (match S.itemCol item with
             | some ci => S.beta ci
             | none => 0)
          + S.beta cy + S.beta cq
          + lsWeekendTerm S.beta S.weekendIdx t
          + lsDayNightTerm S.beta S.daytimeIdx S.nighttimeIdx t)
    | _, _ => S.Rhat

/-- `CompetitionRecommender.predict`: the raw prediction, clamped. -/
def cPredict (S : CState) (user item : Int) (t : Int) : ℚ :=
  clamp (cRawPredict S user item t)

/-! ### `Recommender.rmse` -/

/-- One row of the evaluation DataFrame handed to `rmse`, in its
positional column order `(user, item, rating, timestamp)`, plus the
`prediction` column (absent, i.e. `none`, until `rmse` adds it). -/
structure EvalRow where
  user : Int
  item : Int
  rating : ℝ
  timestamp : Int
  prediction : Option ℝ

/-- Mean of a list of reals. -/
noncomputable def meanR (l : List ℝ) : ℝ := l.sum / l.length

/-- `Recommender.rmse`, with the object state made explicit: the model
`m` is read by the predict calls (`p m user item timestamp` models
`self.predict(...)` reading positional columns 0, 1, 3) and never
written; the assignment
`true_ratings[prediction] = true_ratings.apply(...)` rebinds the rows of the DataFrame of the caller with the new column filled in; the returned score is
`sqrt(mean((rating - prediction)**2))` over the updated frame. -/
noncomputable def rmseRun {σ : Type} (m : σ) (p : σ → Int → Int → Int → ℝ)
    (rows : List EvalRow) : σ × List EvalRow × ℝ :=
  let rows2 := rows.map
    (fun r => { r with prediction := some (p m r.user r.item r.timestamp) })
  (m, rows2,
    Real.sqrt (meanR (rows2.map (fun r => (r.rating - r.prediction.getD 0) ^ 2))))

/-! ### Concrete sample states and data used by witnesses -/

/-- A small neighborhood state over `ℚ` used to exercise the predict
path: two users, two items, user 0 rated item 0 above the mean and user 1
rated item 1 below it; the two users share no items, so their correlation
entry is 0. -/
def sampleNState : NState ℚ :=
  { numUsers := 2
    numItems := 2
    Rhat := 3
    Bu := fun u => if u = 0 then some 1 else if u = 1 then some (-1) else none
    Bi := fun i => if i = 0 then some 1 else if i = 1 then some (-1) else none
    Rtilde := fun i u => if i = 0 ∧ u = 0 then 1 else if i = 1 ∧ u = 1 then -1 else 0
    binary := fun i u => decide ((i = 0 ∧ u = 0) ∨ (i = 1 ∧ u = 1))
    userCorr := fun a b => if a = b then 1 else 0
    numNeighbours := 3 }

/-- A baseline state whose bias tables only know users 0, 1 and items
0, 1. -/
def sampleBState : BState :=
  { Rhat := 3
    Bu := fun u => if u = 0 then some 1 else if u = 1 then some (-1) else none
    Bi := fun i => if i = 0 then some 1 else if i = 1 then some (-1) else none }

/-- Ratings table `[(0, 0, 4, 100), (1, 1, 2, 200)]`: two users, two
items, global mean 3, with ids 0-based and contiguous. -/
def sampleRatings : List RatingRec :=
  [⟨0, 0, 4, 100⟩, ⟨1, 1, 2, 200⟩]

/-- The neighborhood state fitted on `sampleRatings` (the fit succeeds,
see the C1 counterexample). -/
noncomputable def sampleFitted : NState ℝ :=
  (nFit sampleRatings).getD
    ⟨0, 0, 0, fun _ => none, fun _ => none, fun _ _ => 0, fun _ _ => false,
      fun _ _ => 0, 0⟩

/-- A small basic least-squares state. -/
def sampleLSState : LSState :=
  { Rhat := 3
    userCol := fun u => if u = 1 then some 0 else none
    itemCol := fun i => if i = 1 then some 1 else none
    beta := fun k =>
      if k = 0 then 1/2 else if k = 1 then 1/4 else
      if k = 4 then 1/16 else if k = 5 then 1/32 else 0
    weekendIdx := 4
    daytimeIdx := 5
    nighttimeIdx := 6 }

/-- A small extended least-squares state: it knows user 1, item 1, year
1970 and quarter 1 only. -/
def sampleCState : CState :=
  { Rhat := 3
    userCol := fun u => if u = 1 then some 0 else none
    itemCol := fun i => if i = 1 then some 1 else none
    yearCol := fun y => if y = 1970 then some 2 else none
    quarterCol := fun q => if q = 1 then some 3 else none
    beta := fun k =>
      if k = 0 then 1/2 else if k = 1 then 1/4 else if k = 2 then 1/8 else
      if k = 3 then 1/64 else if k = 4 then 1/16 else if k = 5 then 1/32 else 0
    weekendIdx := 4
    daytimeIdx := 5
    nighttimeIdx := 6 }

/-! ### Claims -/

/-- Claim C2: for every model (baseline, neighborhood, basic
least-squares, extended least-squares) and every (user, item, timestamp)
triple — including unseen entities — any value returned by `predict` lies
in the closed interval `[0.5, 5]`: every return path goes through
`np.clip(·, 0.5, 5)`.  (For the neighborhood model the bound is stated
for every triple on which `predict` returns at all; see claim C1 for the
triples on which it raises.) -/
theorem claim_C2 :
    (∀ (K : Type) [LinearOrderedField K] (S : NState K) (u i t : Int) (v : K),
        nPredict S u i t = some v → 1/2 ≤ v ∧ v ≤ 5)
    ∧ (∀ (S : BState) (u i t : Int),
        1/2 ≤ bPredict S u i t ∧ bPredict S u i t ≤ 5)
    ∧ (∀ (S : LSState) (u i t : Int),
        1/2 ≤ lsPredict S u i t ∧ lsPredict S u i t ≤ 5)
    ∧ (∀ (S : CState) (u i t : Int),
        1/2 ≤ cPredict S u i t ∧ cPredict S u i t ≤ 5) := by
  refine ⟨?_, ?_, ?_, ?_⟩
  · intro K _ S u i t v h
    unfold nPredict at h
    split at h
    · rw [Option.some.injEq] at h
      rw [← h]
      exact clamp_mem _
    · exact absurd h (by simp)
  · intro S u i t
    exact clamp_mem _
  · intro S u i t
    exact clamp_mem _
  · intro S u i t
    exact clamp_mem _

/-- Witness for C2 at a concrete neighborhood state and triple:
`nPredict sampleNState 0 1 99` returns `some 3`, and the theorem bounds
that value. -/
theorem claim_C2_witness : (1/2 : ℚ) ≤ 3 ∧ (3 : ℚ) ≤ 5 :=
  claim_C2.1 ℚ sampleNState 0 1 99 3 (by with_unfolding_all decide)

/-- Claim C5: in the neighborhood model, when the selected neighbor sums
both vanish (no correlated neighbor with nonzero weight), the deviation
term is 0 and the prediction is exactly the baseline formula
`clamp(R_hat + B_u[user] + B_i[item], 0.5, 5)`. -/
theorem claim_C5 :
    ∀ (K : Type) [LinearOrderedField K] (S : NState K) (u i : Nat) (t : Int)
      (bu bi : K),
      u < S.numUsers → i < S.numItems →
      S.Bu u = some bu → S.Bi i = some bi →
      nomSum S u i = 0 → denSum S u i = 0 →
      nPredict S u i t = some (clamp (S.Rhat + bu + bi)) := by
  intro K _ S u i t bu bi hu hi hbu hbi hnom hden
  unfold nPredict
  rw [if_pos]
  · simp only [Int.toNat_natCast, hbu, hbi, hnom, hden]
    simp
  · exact ⟨Int.natCast_nonneg i, by simpa using hi, Int.natCast_nonneg u,
      by simpa using hu⟩

/-- Witness for C5: in `sampleNState`, user 0 has no correlated neighbor
that rated item 1 (user 1 rated it but their correlation with user 0 is
0), so both sums vanish and the prediction is the baseline value. -/
theorem claim_C5_witness :
    nomSum sampleNState 0 1 = 0 ∧ denSum sampleNState 0 1 = 0 ∧
    nPredict sampleNState 0 1 99 = some (clamp (3 + 1 + -1)) :=
  ⟨by with_unfolding_all decide, by with_unfolding_all decide,
    claim_C5 ℚ sampleNState 0 1 99 1 (-1) (by decide) (by decide)
      (by decide) (by decide)
      (by with_unfolding_all decide) (by with_unfolding_all decide)⟩

/-- Counterexample to claim C1 as stated: the neighborhood model fitted
on `sampleRatings` (the fit succeeds: `isSome`) raises (`none`) when
asked to predict item 2, which is outside the deviation matrix — the
lookup `binary_R_tilde.loc[item]` on line 110 sits outside the
`try/except`, so `predict` does NOT return normally on every triple. -/
theorem claim_C1_counterexample :
    (nFit sampleRatings).isSome = true ∧ nPredict sampleFitted 0 2 7 = none := by
  with_unfolding_all exact ⟨rfl, rfl⟩

/-- Claim C1 (amended): the baseline `predict` always returns normally
and degrades to the clamped global mean when either bias lookup fails;
the neighborhood `predict`, however, returns normally EXACTLY when the
item is a row label of the deviation matrix and the user is a label of
the correlation matrix — for any other (user, item) it raises.  The
internal global-mean fallback of the neighborhood model covers only
failures of the bias lookups, which sit inside its `try`. -/
theorem claim_C1_amended :
    (∀ (K : Type) [LinearOrderedField K] (S : NState K) (u i t : Int),
        (nPredict S u i t).isSome = true ↔
          (0 ≤ i ∧ i.toNat < S.numItems ∧ 0 ≤ u ∧ u.toNat < S.numUsers))
    ∧ (∀ (S : BState) (u i t : Int),
        (S.Bu u = none ∨ S.Bi i = none) → bPredict S u i t = clamp S.Rhat) := by
  constructor
  · intro K _ S u i t
    unfold nPredict
    split
    · next h => simpa using h
    · next h => simpa using h
  · intro S u i t h
    rcases h with h | h
    · cases hbi : S.Bi i <;> simp [bPredict, h, hbi]
    · cases hbu : S.Bu u <;> simp [bPredict, h, hbu]

/-- Witness for the amended C1: at `sampleNState` the bounds hold for
(user 0, item 0), so `predict` returns; and the baseline state degrades
to the clamped global mean for the unseen user 7. -/
theorem claim_C1_amended_witness :
    (nPredict sampleNState 0 0 99).isSome = true ∧
    bPredict sampleBState 7 0 0 = clamp (3 : ℚ) :=
  ⟨(claim_C1_amended.1 ℚ sampleNState 0 0 99).mpr (by decide),
    claim_C1_amended.2 sampleBState 7 0 0 (Or.inl (by decide))⟩

/-- Claim C3: in the extended least-squares model, an item unseen at fit
time (with seen user, year and quarter) does NOT trigger fallback — the
item column is silently omitted and the prediction is the global mean
plus the remaining selected coefficients, clamped; whereas an unseen
user, year or quarter makes `raw_predict` fall back to the global mean
alone (and `predict` to its clamped value). -/
theorem claim_C3 :
    (∀ (S : CState) (u i t : Int) (cu cy cq : Nat),
        S.userCol u = some cu →
        S.yearCol (yearOf t) = some cy →
        S.quarterCol (quarterOf t) = some cq →
        S.itemCol i = none →
        cRawPredict S u i t =
          S.Rhat + (S.beta cu + S.beta cy + S.beta cq
            + lsWeekendTerm S.beta S.weekendIdx t
            + lsDayNightTerm S.beta S.daytimeIdx S.nighttimeIdx t)
        ∧ cPredict S u i t =
          clamp (S.Rhat + (S.beta cu + S.beta cy + S.beta cq
            + lsWeekendTerm S.beta S.weekendIdx t
            + lsDayNightTerm S.beta S.daytimeIdx S.nighttimeIdx t)))
    ∧ (∀ (S : CState) (u i t : Int),
        (S.userCol u = none ∨ S.yearCol (yearOf t) = none ∨
          S.quarterCol (quarterOf t) = none) →
        cRawPredict S u i t = S.Rhat ∧ cPredict S u i t = clamp S.Rhat) := by
  constructor
  · intro S u i t cu cy cq hcu hcy hcq hci
    have hraw : cRawPredict S u i t =
        S.Rhat + (S.beta cu + S.beta cy + S.beta cq
          + lsWeekendTerm S.beta S.weekendIdx t
          + lsDayNightTerm S.beta S.daytimeIdx S.nighttimeIdx t) := by
      unfold cRawPredict
      rw [hcu, hcy, hcq, hci]
      ring
    exact ⟨hraw, by unfold cPredict; rw [hraw]⟩
  · intro S u i t h
    have hraw : cRawPredict S u i t = S.Rhat := by
      unfold cRawPredict
      rcases h with h | h | h
      · rw [h]
      · cases hcu : S.userCol u
        · rfl
        · rw [h]
      · cases hcu : S.userCol u
        · rfl
        · rw [h]
          cases S.yearCol (yearOf t) <;> rfl
    exact ⟨hraw, by unfold cPredict; rw [hraw]⟩

/-- Witness for C3 with both branches at `sampleCState` and timestamp 0
(1970, quarter 1, a Thursday, nighttime): item 99 is unseen but user 1,
the year and the quarter are seen, so no fallback happens; user 2 is
unseen, so the prediction falls back to the global mean. -/
theorem claim_C3_witness :
    (sampleCState.itemCol 99 = none ∧
      cRawPredict sampleCState 1 99 0 =
        sampleCState.Rhat + (sampleCState.beta 0 + sampleCState.beta 2
          + sampleCState.beta 3
          + lsWeekendTerm sampleCState.beta sampleCState.weekendIdx 0
          + lsDayNightTerm sampleCState.beta sampleCState.daytimeIdx
              sampleCState.nighttimeIdx 0))
    ∧ (sampleCState.userCol 2 = none ∧
        cRawPredict sampleCState 2 1 0 = sampleCState.Rhat ∧
        cPredict sampleCState 2 1 0 = clamp sampleCState.Rhat) :=
  ⟨⟨by decide,
    (claim_C3.1 sampleCState 1 99 0 0 2 3 (by decide) (by decide) (by decide)
      (by decide)).1⟩,
    ⟨by decide, claim_C3.2 sampleCState 2 1 0 (Or.inl (by decide))⟩⟩

/-- Counterexample to claim C7 as stated: at 06:00:00 exactly
(timestamp 21600), the spec interval `[06:00, 18:00)` contains the
instant, the fit-time classifier marks it daytime, but the predict-time
classifier marks it NIGHTTIME (strict `>`); and at 18:00:00 exactly
(timestamp 64800), the spec excludes it, the predict-time classifier
agrees, but the fit-time classifier marks it DAYTIME (pandas `between` is
inclusive).  So neither side implements `[06:00, 18:00)`, and fit and
predict do not apply the same classification. -/
theorem claim_C7_counterexample :
    (fitIsDaytime 21600 ∧ ¬ predictIsDaytime 21600)
    ∧ (fitIsDaytime 64800 ∧ ¬ predictIsDaytime 64800) := by
  decide

/-- Claim C7 (amended): the fit-time classifier marks daytime on the
CLOSED interval `[06:00, 18:00]` (pandas `between`, inclusive at both
ends) with nighttime its complement, while the predict-time classifier
marks daytime on the OPEN interval `(06:00, 18:00)`; the two agree at
every time of day other than exactly 06:00:00 and 18:00:00, where fit
says daytime and predict says nighttime. -/
theorem claim_C7_amended :
    ∀ t : Int,
      (fitIsDaytime t ↔ 21600 ≤ secsOfDay t ∧ secsOfDay t ≤ 64800)
      ∧ (predictIsDaytime t ↔ 21600 < secsOfDay t ∧ secsOfDay t < 64800)
      ∧ (fitIsNighttime t ↔ ¬ fitIsDaytime t)
      ∧ (secsOfDay t ≠ 21600 → secsOfDay t ≠ 64800 →
          (fitIsDaytime t ↔ predictIsDaytime t)) := by
  intro t
  refine ⟨Iff.rfl, Iff.rfl, Iff.rfl, ?_⟩
  intro h1 h2
  unfold fitIsDaytime predictIsDaytime
  omega

/-- Witness for the amended C7 at 01:00:00 (timestamp 3600), away from
both boundary instants: fit and predict classify it identically. -/
theorem claim_C7_witness :
    (secsOfDay 3600 ≠ 21600 ∧ secsOfDay 3600 ≠ 64800)
    ∧ (fitIsDaytime 3600 ↔ predictIsDaytime 3600) :=
  ⟨by decide, (claim_C7_amended 3600).2.2.2 (by decide) (by decide)⟩

/-! ### Correlation-matrix lemmas for C4 and C6 -/

theorem nomC_symm (D : Nat → Nat → ℚ) (I : Nat) (a b : Nat) :
    nomC D I a b = nomC D I b a := by
  unfold nomC
  congr 1
  exact List.map_congr_left fun i _ => mul_comm _ _

theorem denomC_symm (D : Nat → Nat → ℚ) (I : Nat) (a b : Nat) :
    denomC D I a b = denomC D I b a := by
  unfold denomC
  exact mul_comm _ _

theorem list_sum_zero_of_nonneg {l : List ℚ} (h : ∀ x ∈ l, 0 ≤ x)
    (hs : l.sum = 0) : ∀ x ∈ l, x = 0 := by
  induction l with
  | nil => simp
  | cons a tl ih =>
    rw [List.sum_cons] at hs
    have ha : 0 ≤ a := h a (by simp)
    have htl : 0 ≤ tl.sum := List.sum_nonneg fun x hx => h x (by simp [hx])
    have ha0 : a = 0 := le_antisymm (by linarith) ha
    have htl0 : tl.sum = 0 := by linarith
    intro x hx
    rcases List.mem_cons.mp hx with rfl | hx
    · exact ha0
    · exact ih (fun y hy => h y (by simp [hy])) htl0 x hx

/-- If one of the masked squared-deviation sums vanishes, every
co-deviation product vanishes. -/
theorem Amat_zero_products {D : Nat → Nat → ℚ} {I : Nat} {a b : Nat}
    (h : Amat D I a b = 0) : ∀ i < I, D i a * D i b = 0 := by
  intro i hi
  have hterm :
      (D i a) ^ 2 * (if D i b = 0 then 0 else 1) = 0 := by
    refine list_sum_zero_of_nonneg ?_ h _ ?_
    · intro x hx
      rcases List.mem_map.mp hx with ⟨j, _, rfl⟩
      have hsq : (0:ℚ) ≤ (D j a) ^ 2 := sq_nonneg _
      split
      · simp
      · simpa using hsq
    · exact List.mem_map.mpr ⟨i, List.mem_range.mpr hi, rfl⟩
  by_cases hb : D i b = 0
  · rw [hb, mul_zero]
  · rw [if_neg hb, mul_one] at hterm
    rw [pow_eq_zero_iff (by norm_num)] at hterm
    rw [hterm, zero_mul]

/-- A vanishing correlation denominator forces a vanishing nominator
(this is why the `0 / 0 → NaN → 0` repair in `fillna` covers every zero
denominator, and `inf` never arises). -/
theorem denomC_eq_zero_nomC {D : Nat → Nat → ℚ} {I : Nat} {a b : Nat}
    (h : denomC D I a b = 0) : nomC D I a b = 0 := by
  unfold denomC at h
  have hprod : ∀ i < I, D i a * D i b = 0 := by
    rcases mul_eq_zero.mp h with h0 | h0
    · intro i hi
      have := Amat_zero_products h0 i hi
      rw [mul_comm] at this
      exact this
    · exact Amat_zero_products h0
  unfold nomC
  refine List.sum_eq_zero ?_
  intro x hx
  rcases List.mem_map.mp hx with ⟨j, hj, rfl⟩
  exact hprod j (List.mem_range.mp hj)

/-- Claim C4: the user correlation matrix computed at fit time is
symmetric — both the raw entries and the `user_similarity` lookups agree
under swapping the two users. -/
theorem claim_C4 :
    ∀ (D : Nat → Nat → ℚ) (I U : Nat),
      (∀ a b : Nat, corrC D I a b = corrC D I b a)
      ∧ ∀ u1 u2 : Int,
          userSimilarityOf (corrC D I) U u1 u2 =
            userSimilarityOf (corrC D I) U u2 u1 := by
  intro D I U
  have hcorr : ∀ a b : Nat, corrC D I a b = corrC D I b a := by
    intro a b
    unfold corrC
    rw [nomC_symm D I a b, denomC_symm D I a b]
  refine ⟨hcorr, ?_⟩
  intro u1 u2
  unfold userSimilarityOf
  split
  · next h =>
    rw [if_pos (by tauto)]
    rw [hcorr]
  · next h =>
    rw [if_neg (by tauto)]

/-- Claim C6: every user pair whose correlation denominator is zero (in
particular two users sharing no co-rated item) gets the entry exactly 0
(the `0 / 0` NaN is repaired by `fillna(0)`, deterministically — the
embedding is total, no NaN value exists), and `user_similarity` then
returns exactly 0 for that pair. -/
theorem claim_C6 :
    ∀ (D : Nat → Nat → ℚ) (I U : Nat) (a b : Nat),
      denomC D I a b = 0 →
      corrC D I a b = 0
      ∧ (a < U → b < U →
          userSimilarityOf (corrC D I) U a b = some 0) := by
  intro D I U a b h
  have hnom : nomC D I a b = 0 := denomC_eq_zero_nomC h
  have hcorr : corrC D I a b = 0 := by
    unfold corrC
    rw [if_pos ⟨hnom, h⟩]
  refine ⟨hcorr, ?_⟩
  intro ha hb
  unfold userSimilarityOf
  rw [if_pos (by simp [ha, hb])]
  rw [Int.toNat_natCast, Int.toNat_natCast, hcorr]

/-- The deviation matrix of `sampleRatings` (user 0 deviates by +1 on
item 0, user 1 by −1 on item 1, no shared item). -/
def sampleDev : Nat → Nat → ℚ :=
  fun i u => if i = 0 ∧ u = 0 then 1 else if i = 1 ∧ u = 1 then -1 else 0

/-- Witness for C6: in `sampleDev`, users 0 and 1 share no co-rated item,
the denominator vanishes, and the theorem makes their correlation entry
and similarity exactly 0. -/
theorem claim_C6_witness :
    denomC sampleDev 2 0 1 = 0 ∧ corrC sampleDev 2 0 1 = 0 ∧
    userSimilarityOf (corrC sampleDev 2) 2 0 1 = some 0 := by
  have h : denomC sampleDev 2 0 1 = 0 := by with_unfolding_all decide
  exact ⟨h, (claim_C6 sampleDev 2 2 0 1 h).1,
    (claim_C6 sampleDev 2 2 0 1 h).2 (by decide) (by decide)⟩

/-- Claim C9: `rmse` mutates its input — every row of the returned
evaluation frame keeps its user, item, rating and timestamp columns and
additionally carries the per-row prediction of the model in the new
`prediction` column — while the model state itself is returned
unchanged. -/
theorem claim_C9 :
    ∀ (σ : Type) (m : σ) (p : σ → Int → Int → Int → ℝ) (rows : List EvalRow),
      (rmseRun m p rows).1 = m
      ∧ List.Forall₂
          (fun r r2 =>
            r2.user = r.user ∧ r2.item = r.item ∧ r2.rating = r.rating
            ∧ r2.timestamp = r.timestamp
            ∧ r2.prediction = some (p m r.user r.item r.timestamp))
          rows (rmseRun m p rows).2.1 := by
  intro σ m p rows
  refine ⟨rfl, ?_⟩
  have h2 : (rmseRun m p rows).2.1 =
      rows.map (fun r =>
        { r with prediction := some (p m r.user r.item r.timestamp) }) := rfl
  rw [h2, List.forall₂_map_right_iff, List.forall₂_same]
  intro r hr
  exact ⟨rfl, rfl, rfl, rfl, rfl⟩

/-! ### Lemmas about the deviation-matrix build for C10 -/

theorem wrapIdx_of_inRange {n : Nat} {k : Int} (h0 : 0 ≤ k)
    (h1 : k < (n : Int)) : wrapIdx n k = k.toNat := by
  unfold wrapIdx
  rw [Int.emod_eq_of_lt h0 h1]

theorem foldl_buildStep_preserve (I U : Nat) (Rhat : ℚ) :
    ∀ (l : List RatingRec) (M : Nat → Nat → ℚ) (i u : Nat),
      (∀ r ∈ l, ¬(wrapIdx I r.item = i ∧ wrapIdx U r.user = u)) →
      l.foldl (buildStep I U Rhat) M i u = M i u := by
  intro l
  induction l with
  | nil => intro M i u _; rfl
  | cons x xs ih =>
    intro M i u h
    rw [List.foldl_cons, ih _ i u (fun r hr => h r (by simp [hr]))]
    unfold buildStep writeCell
    rw [if_neg ?_]
    intro hcontra
    exact h x (by simp) ⟨hcontra.1.symm ▸ rfl, hcontra.2.symm ▸ rfl⟩

theorem foldl_buildStep_stored (I U : Nat) (Rhat : ℚ) :
    ∀ (l : List RatingRec) (M : Nat → Nat → ℚ),
      l.Pairwise (fun r1 r2 => (r1.item, r1.user) ≠ (r2.item, r2.user)) →
      (∀ r ∈ l, 0 ≤ r.item ∧ r.item < (I : Int) ∧ 0 ≤ r.user ∧ r.user < (U : Int)) →
      ∀ r ∈ l,
        l.foldl (buildStep I U Rhat) M (wrapIdx I r.item) (wrapIdx U r.user)
          = r.rating - Rhat := by
  intro l
  induction l with
  | nil => intro M _ _ r hr; cases hr
  | cons x xs ih =>
    intro M hpw hrange r hr
    have hx := hrange x (by simp)
    rw [List.foldl_cons]
    rcases List.mem_cons.mp hr with rfl | hr2
    · have hpres : ∀ r2 ∈ xs,
          ¬(wrapIdx I r2.item = wrapIdx I r.item ∧
            wrapIdx U r2.user = wrapIdx U r.user) := by
        intro r2 hr2 hcontra
        have hr2r := hrange r2 (by simp [hr2])
        have hne := (List.pairwise_cons.mp hpw).1 r2 hr2
        apply hne
        rw [wrapIdx_of_inRange hr2r.1 hr2r.2.1,
          wrapIdx_of_inRange hx.1 hx.2.1] at hcontra
        rw [wrapIdx_of_inRange hr2r.2.2.1 hr2r.2.2.2,
          wrapIdx_of_inRange hx.2.2.1 hx.2.2.2] at hcontra
        have hitem : r.item = r2.item := by
          rw [← Int.toNat_of_nonneg hx.1, ← Int.toNat_of_nonneg hr2r.1,
            hcontra.1]
        have huser : r.user = r2.user := by
          rw [← Int.toNat_of_nonneg hx.2.2.1, ← Int.toNat_of_nonneg hr2r.2.2.1,
            hcontra.2]
        rw [hitem, huser]
      rw [foldl_buildStep_preserve I U Rhat xs _ _ _ hpres]
      unfold buildStep writeCell
      rw [if_pos ⟨rfl, rfl⟩]
    · exact ih _ (List.pairwise_cons.mp hpw).2
        (fun r2 h2 => hrange r2 (by simp [h2])) r hr2

/-- Claim C10: the neighborhood fit addresses the deviation matrix with
the raw ids as positional indices.  For pairwise-distinct (item, user)
pairs: the numpy assignment raises no `IndexError` exactly when every id
lies within the numpy index bounds of the
`(distinct items) × (distinct users)` matrix, and under the claimed
precondition — every user id in `[0, number of distinct users)` and every
item id in `[0, number of distinct items)`, i.e. 0-based contiguous
ids — the build succeeds with each rating stored at its own cell
`[item][user]` as the mean-adjusted value.  (A NEGATIVE in-bounds id also
raises no error but wraps around to another cell, so no rating can sit at
"its own" nonnegative cell in that case.) -/
theorem claim_C10 :
    ∀ (recs : List RatingRec),
      recs.Pairwise (fun r1 r2 => (r1.item, r1.user) ≠ (r2.item, r2.user)) →
      ((buildRtilde (distinctItemsN recs) (distinctUsersN recs)
          (meanQ (recs.map (fun r => r.rating))) recs).isSome = true ↔
        ∀ r ∈ recs, inNumpyBounds (distinctItemsN recs) (distinctUsersN recs) r)
      ∧ ((∀ r ∈ recs,
            0 ≤ r.item ∧ r.item < (distinctItemsN recs : Int) ∧
            0 ≤ r.user ∧ r.user < (distinctUsersN recs : Int)) →
          ∀ r ∈ recs,
            (buildRtilde (distinctItemsN recs) (distinctUsersN recs)
                (meanQ (recs.map (fun r => r.rating))) recs).getD
              (fun _ _ => 0) r.item.toNat r.user.toNat
              = r.rating - meanQ (recs.map (fun r => r.rating))) := by
  intro recs hpw
  constructor
  · unfold buildRtilde
    split
    · next hall =>
      simp only [Option.isSome_some, true_iff]
      intro r hr
      have := List.all_eq_true.mp hall r hr
      exact of_decide_eq_true this
    · next hall =>
      simp only [Option.isSome_none, Bool.false_eq_true, false_iff]
      intro hcontra
      exact hall (List.all_eq_true.mpr
        (fun r hr => decide_eq_true (hcontra r hr)))
  · intro hrange r hr
    have hall : recs.all
        (fun r => decide (inNumpyBounds (distinctItemsN recs)
          (distinctUsersN recs) r)) = true := by
      refine List.all_eq_true.mpr fun x hx => decide_eq_true ?_
      have h := hrange x hx
      exact ⟨by omega, h.2.1, by omega, h.2.2.2⟩
    unfold buildRtilde
    rw [hall, if_pos rfl, Option.getD_some]
    have h := hrange r hr
    rw [← wrapIdx_of_inRange h.1 h.2.1, ← wrapIdx_of_inRange h.2.2.1 h.2.2.2]
    exact foldl_buildStep_stored _ _ _ recs _ hpw hrange r hr

/-- Witness for C10 on `sampleRatings` (ids 0-based contiguous, distinct
pairs): the build succeeds and the rating of the first record sits at cell
(0, 0) as its mean-adjusted value. -/
theorem claim_C10_witness :
    (buildRtilde (distinctItemsN sampleRatings) (distinctUsersN sampleRatings)
        (meanQ (sampleRatings.map (fun r => r.rating))) sampleRatings).isSome
      = true
    ∧ (buildRtilde (distinctItemsN sampleRatings) (distinctUsersN sampleRatings)
        (meanQ (sampleRatings.map (fun r => r.rating))) sampleRatings).getD
        (fun _ _ => 0) 0 0
      = 4 - meanQ (sampleRatings.map (fun r => r.rating)) :=
  ⟨(claim_C10 sampleRatings (by decide)).1.mpr (by decide),
    (claim_C10 sampleRatings (by decide)).2 (by decide)
      ⟨0, 0, 4, 100⟩ (by simp [sampleRatings])⟩

end Ecommerce
